import Mathlib

/-!
Verification of `story_mcp_server` (src/server.py), an MCP adapter that
forwards three tool calls to an upstream story-generation HTTP API.

The development shallowly embeds:
* Python JSON values (`Json`) and the exact text produced by
  `json.dumps(·, ensure_ascii=False, indent=2)` and
  `json.dumps(·, ensure_ascii=False)` (`dumps2`, `dumps0`);
* a declarative grammar of JSON texts (`JText`) used to state that every
  string the server returns parses as JSON;
* the outcome classification of `_api_post` (`apiPost`) over an abstract
  model of the httpx call result (`CallResult`);
* the three tools `generate_story`, `generate_episodic_beats_from_file`
  and `ask_vector_db`, including the dead `success == False` branch and
  the defensive outer exception handler.
-/

namespace StoryMcp

/-- A Python/JSON value, as produced by `json.loads` on the upstream body
or built by dict literals in `server.py`.  Numbers are modelled as
integers (no claim touches fractional values). -/
inductive Json where
  | null
  | bool (b : Bool)
  | num (n : Int)
  | str (s : String)
  | arr (elems : List Json)
  | obj (members : List (String × Json))

/-- Decimal digit character for `d < 10` (`0 ↦ '0'`, …). -/
def digitChar (d : Nat) : Char := Char.ofNat (48 + d)

/-- Lowercase hexadecimal digit character for `d < 16`, as produced by
Python's `'\u{0:04x}'.format`. -/
def lhexDigit (d : Nat) : Char :=
  if d < 10 then Char.ofNat (48 + d) else Char.ofNat (87 + d)

/-- The decimal digits of `n`, most significant first: Python `str` on a
nonnegative `int`. -/
def natDigits (n : Nat) : List Char :=
  if _hlt : n < 10 then [digitChar n]
  else natDigits (n / 10) ++ [digitChar (n % 10)]
termination_by n
decreasing_by
  exact Nat.div_lt_self (by omega) (by omega)

/-- Python `str` on an `int`: a minus sign followed by the digits of the
absolute value when negative. -/
def intChars (n : Int) : List Char :=
  if n < 0 then '-' :: natDigits n.natAbs else natDigits n.toNat

/-- Python `str` on an `int`, as a `String` (used by the f-strings in
`server.py` and by the serializer). -/
def pyIntStr (n : Int) : String := ⟨intChars n⟩

/-- The escape Python's `json.encoder.py_encode_basestring` (the
`ensure_ascii=False` encoder) applies to one character: `\` and `"` and
the five named control characters get two-character escapes, the
remaining characters below U+0020 get `\u00xx` with lowercase hex, and
everything else is emitted verbatim. -/
def escChar (c : Char) : List Char :=
  if c = '\\' then ['\\', '\\']
  else if c = '"' then ['\\', '"']
  else if c = '\n' then ['\\', 'n']
  else if c = '\t' then ['\\', 't']
  else if c = '\r' then ['\\', 'r']
  else if c = Char.ofNat 8 then ['\\', 'b']
  else if c = Char.ofNat 12 then ['\\', 'f']
  else if c.toNat < 32 then
    ['\\', 'u', '0', '0', lhexDigit (c.toNat / 16), lhexDigit (c.toNat % 16)]
  else [c]

/-- `py_encode_basestring` applied to a whole character list. -/
def escapeChars : List Char → List Char
  | [] => []
  | c :: cs => escChar c ++ escapeChars cs

/-- The keyword text `null`. -/
def nullChars : List Char := ['n', 'u', 'l', 'l']

/-- The keyword text `true`. -/
def trueChars : List Char := ['t', 'r', 'u', 'e']

/-- The keyword text `false`. -/
def falseChars : List Char := ['f', 'a', 'l', 's', 'e']

/-- The whitespace `json.dumps` inserts after an opening bracket and
before a closing bracket of a nonempty container: nothing in compact
mode, a newline plus `n * lvl` spaces with `indent=n`. -/
def nlIndent : Option Nat → Nat → List Char
  | none, _ => []
  | some n, lvl => '\n' :: List.replicate (n * lvl) ' '

/-- The whitespace `json.dumps` inserts after an item-separating comma:
one space in compact mode (separator `", "`), a newline plus indentation
with `indent=n`. -/
def sepWs : Option Nat → Nat → List Char
  | none, _ => [' ']
  | some n, lvl => '\n' :: List.replicate (n * lvl) ' '

mutual

/-- The characters `json.dumps(j, ensure_ascii=False, indent=ind)` emits
for `j` at nesting level `lvl` (`ind = none` is `indent=None`, Python's
default).  Key separator is `": "` in both modes; empty containers are
`[]` and `\x7b\x7d` in both modes; members keep insertion order
(`sort_keys` defaults to `False`). -/
def dumpsVal (ind : Option Nat) (lvl : Nat) : Json → List Char
  | .null => nullChars
  | .bool b => if b then trueChars else falseChars
  | .num n => intChars n
  | .str s => '"' :: (escapeChars s.data ++ ['"'])
  | .arr [] => ['[', ']']
  | .arr (x :: xs) =>
      '[' :: (nlIndent ind (lvl + 1) ++ dumpsVal ind (lvl + 1) x
        ++ dumpsItems ind (lvl + 1) xs ++ nlIndent ind lvl ++ [']'])
  | .obj [] => ['\x7b', '\x7d']
  | .obj (kv :: kvs) =>
      '\x7b' :: (nlIndent ind (lvl + 1) ++ dumpsMember ind (lvl + 1) kv
        ++ dumpsMembers ind (lvl + 1) kvs ++ nlIndent ind lvl ++ ['\x7d'])

/-- The remaining array items, each preceded by the item separator. -/
def dumpsItems (ind : Option Nat) (lvl : Nat) : List Json → List Char
  | [] => []
  | x :: xs =>
      ',' :: (sepWs ind lvl ++ dumpsVal ind lvl x ++ dumpsItems ind lvl xs)

/-- One object member: quoted escaped key, `": "`, value. -/
def dumpsMember (ind : Option Nat) (lvl : Nat) : String × Json → List Char
  | (k, v) =>
      '"' :: (escapeChars k.data ++ ['"', ':', ' '] ++ dumpsVal ind lvl v)

/-- The remaining object members, each preceded by the item separator. -/
def dumpsMembers (ind : Option Nat) (lvl : Nat) : List (String × Json) → List Char
  | [] => []
  | kv :: kvs =>
      ',' :: (sepWs ind lvl ++ dumpsMember ind lvl kv ++ dumpsMembers ind lvl kvs)

end

/-- `json.dumps(j, ensure_ascii=False, indent=2)` — the serialization
used on every non-exceptional tool path. -/
def dumps2 (j : Json) : String := ⟨dumpsVal (some 2) 0 j⟩

/-- `json.dumps(j, ensure_ascii=False)` — the serialization used in the
tools' defensive `except` branch. -/
def dumps0 (j : Json) : String := ⟨dumpsVal none 0 j⟩

/-! ### A declarative grammar of JSON texts

`JText t j` says: the character list `t` is a syntactically valid JSON
text denoting the value `j` (RFC 8259 value grammar, with interior
whitespace wherever the grammar allows it; `\u` escapes are restricted
to non-surrogate code points below U+D800, which covers everything the
encoder above ever emits). -/

/-- The four JSON whitespace characters. -/
def jsonWs (c : Char) : Prop := c = ' ' ∨ c = '\n' ∨ c = '\t' ∨ c = '\r'

/-- A (possibly empty) run of JSON whitespace. -/
def Ws (l : List Char) : Prop := ∀ c ∈ l, jsonWs c

/-- Value of a hexadecimal digit character, both cases accepted. -/
def hexCharVal (c : Char) : Option Nat :=
  if 48 ≤ c.toNat ∧ c.toNat ≤ 57 then some (c.toNat - 48)
  else if 97 ≤ c.toNat ∧ c.toNat ≤ 102 then some (c.toNat - 87)
  else if 65 ≤ c.toNat ∧ c.toNat ≤ 70 then some (c.toNat - 55)
  else none

/-- One lexical element of a JSON string body and the character it
denotes: an unescaped character (which must be neither `"` nor `\` nor a
control character), one of the eight two-character escapes, or a
`\uXXXX` escape. -/
inductive StrItem : List Char → Char → Prop where
  | plain (c : Char) (hq : c ≠ '"') (hb : c ≠ '\\') (hc : 32 ≤ c.toNat) :
      StrItem [c] c
  | escQuote : StrItem ['\\', '"'] '"'
  | escBackslash : StrItem ['\\', '\\'] '\\'
  | escSlash : StrItem ['\\', '/'] '/'
  | escB : StrItem ['\\', 'b'] (Char.ofNat 8)
  | escF : StrItem ['\\', 'f'] (Char.ofNat 12)
  | escN : StrItem ['\\', 'n'] '\n'
  | escR : StrItem ['\\', 'r'] '\r'
  | escT : StrItem ['\\', 't'] '\t'
  | escU (a b c d : Char) (va vb vc vd : Nat)
      (ha : hexCharVal a = some va) (hb : hexCharVal b = some vb)
      (hc : hexCharVal c = some vc) (hd : hexCharVal d = some vd)
      (hval : va * 4096 + vb * 256 + vc * 16 + vd < 55296) :
      StrItem ['\\', 'u', a, b, c, d]
        (Char.ofNat (va * 4096 + vb * 256 + vc * 16 + vd))

/-- A JSON string body (the part between the quotes) and the character
sequence it denotes. -/
inductive StrBody : List Char → List Char → Prop where
  | nil : StrBody [] []
  | cons (t : List Char) (c : Char) (ts cs : List Char) :
      StrItem t c → StrBody ts cs → StrBody (t ++ ts) (c :: cs)

/-- A nonempty digit string without a leading zero, read in decimal. -/
inductive PosDigits : List Char → Nat → Prop where
  | head (d : Nat) (h1 : 1 ≤ d) (h9 : d ≤ 9) : PosDigits [digitChar d] d
  | snoc (ds : List Char) (n d : Nat) (h : PosDigits ds n) (hd : d < 10) :
      PosDigits (ds ++ [digitChar d]) (n * 10 + d)

/-- An unsigned JSON integer numeral: `0`, or digits without a leading
zero. -/
inductive NatNumeral : List Char → Nat → Prop where
  | zero : NatNumeral ['0'] 0
  | pos (ds : List Char) (n : Nat) (h : PosDigits ds n) : NatNumeral ds n

mutual

/-- A JSON text (without surrounding whitespace) and the value it
denotes. -/
inductive JText : List Char → Json → Prop where
  | null : JText nullChars .null
  | tru : JText trueChars (.bool true)
  | fal : JText falseChars (.bool false)
  | numNat (ds : List Char) (n : Nat) (h : NatNumeral ds n) :
      JText ds (.num (n : Int))
  | numNeg (ds : List Char) (n : Nat) (h : NatNumeral ds n) :
      JText ('-' :: ds) (.num (-(n : Int)))
  | str (t : List Char) (s : String) (h : StrBody t s.data) :
      JText ('"' :: (t ++ ['"'])) (.str s)
  | arrNil (w : List Char) (hw : Ws w) : JText ('[' :: (w ++ [']'])) (.arr [])
  | arrCons (t : List Char) (xs : List Json) (h : JItems t xs) :
      JText ('[' :: (t ++ [']'])) (.arr xs)
  | objNil (w : List Char) (hw : Ws w) :
      JText ('\x7b' :: (w ++ ['\x7d'])) (.obj [])
  | objCons (t : List Char) (kvs : List (String × Json)) (h : JMembers t kvs) :
      JText ('\x7b' :: (t ++ ['\x7d'])) (.obj kvs)

/-- The inside of a nonempty JSON array: whitespace-padded values
separated by commas. -/
inductive JItems : List Char → List Json → Prop where
  | last (w1 t w2 : List Char) (j : Json) (h1 : Ws w1) (h : JText t j)
      (h2 : Ws w2) : JItems (w1 ++ t ++ w2) [j]
  | cons (w1 t w2 rest : List Char) (j : Json) (js : List Json)
      (h1 : Ws w1) (h : JText t j) (h2 : Ws w2) (hrest : JItems rest js) :
      JItems (w1 ++ t ++ w2 ++ ',' :: rest) (j :: js)

/-- The inside of a nonempty JSON object: whitespace-padded
`"key": value` members separated by commas. -/
inductive JMembers : List Char → List (String × Json) → Prop where
  | last (w1 kt w2 w3 t w4 : List Char) (k : String) (v : Json)
      (hw1 : Ws w1) (hk : StrBody kt k.data) (hw2 : Ws w2) (hw3 : Ws w3)
      (ht : JText t v) (hw4 : Ws w4) :
      JMembers (w1 ++ ('"' :: (kt ++ ['"'])) ++ w2 ++ ':' :: (w3 ++ t ++ w4))
        [(k, v)]
  | cons (w1 kt w2 w3 t w4 rest : List Char) (k : String) (v : Json)
      (kvs : List (String × Json))
      (hw1 : Ws w1) (hk : StrBody kt k.data) (hw2 : Ws w2) (hw3 : Ws w3)
      (ht : JText t v) (hw4 : Ws w4) (hrest : JMembers rest kvs) :
      JMembers
        (w1 ++ ('"' :: (kt ++ ['"'])) ++ w2 ++ ':' :: (w3 ++ t ++ w4)
          ++ ',' :: rest) ((k, v) :: kvs)

end

/-- `s` is a syntactically valid JSON text denoting some value. -/
def ParsesAsJson (s : String) : Prop := ∃ j, JText s.data j

/-! ### The serializer's output is in the grammar -/

theorem ws_nil : Ws [] := by
  intro c hc
  exact absurd hc (List.not_mem_nil c)

theorem ws_nlIndent (ind : Option Nat) (lvl : Nat) : Ws (nlIndent ind lvl) := by
  cases ind with
  | none => exact ws_nil
  | some n =>
    intro c hc
    rcases List.mem_cons.mp hc with h | h
    · exact Or.inr (Or.inl h)
    · exact Or.inl (List.eq_of_mem_replicate h)

theorem ws_sepWs (ind : Option Nat) (lvl : Nat) : Ws (sepWs ind lvl) := by
  cases ind with
  | none =>
    intro c hc
    rcases List.mem_cons.mp hc with h | h
    · exact Or.inl h
    · exact absurd h (List.not_mem_nil c)
  | some n =>
    intro c hc
    rcases List.mem_cons.mp hc with h | h
    · exact Or.inr (Or.inl h)
    · exact Or.inl (List.eq_of_mem_replicate h)

theorem hexCharVal_lhexDigit (d : Nat) (h : d < 16) :
    hexCharVal (lhexDigit d) = some d := by
  interval_cases d <;> decide

/-- Each character's escape is a single string-body lexical element
denoting the character itself. -/
theorem strItem_escChar (c : Char) : StrItem (escChar c) c := by
  unfold escChar
  split_ifs with h1 h2 h3 h4 h5 h6 h7 h8
  · exact h1 ▸ StrItem.escBackslash
  · exact h2 ▸ StrItem.escQuote
  · exact h3 ▸ StrItem.escN
  · exact h4 ▸ StrItem.escT
  · exact h5 ▸ StrItem.escR
  · exact h6 ▸ StrItem.escB
  · exact h7 ▸ StrItem.escF
  · have hv : (0 : Nat) * 4096 + 0 * 256 + c.toNat / 16 * 16 + c.toNat % 16
        = c.toNat := by omega
    have hs := StrItem.escU '0' '0' (lhexDigit (c.toNat / 16))
      (lhexDigit (c.toNat % 16)) 0 0 (c.toNat / 16) (c.toNat % 16)
      (by decide) (by decide)
      (hexCharVal_lhexDigit _ (by omega)) (hexCharVal_lhexDigit _ (by omega))
      (by omega)
    rw [hv, Char.ofNat_toNat] at hs
    exact hs
  · exact StrItem.plain c h2 h1 (by omega)

/-- The escaped form of a character sequence is a string body denoting
that sequence. -/
theorem strBody_escapeChars (cs : List Char) : StrBody (escapeChars cs) cs := by
  induction cs with
  | nil => exact StrBody.nil
  | cons c cs ih => exact StrBody.cons _ c _ _ (strItem_escChar c) ih

theorem posDigits_natDigits : ∀ n : Nat, 0 < n → PosDigits (natDigits n) n := by
  intro n
  induction n using Nat.strong_induction_on with
  | _ n ih =>
    intro hn
    unfold natDigits
    split
    · next h10 => exact PosDigits.head n hn (by omega)
    · next h10 =>
      have hd : PosDigits (natDigits (n / 10)) (n / 10) :=
        ih (n / 10) (by omega) (by omega)
      have hs := PosDigits.snoc _ _ (n % 10) hd (by omega)
      have he : n / 10 * 10 + n % 10 = n := by omega
      rw [he] at hs
      exact hs

theorem natNumeral_natDigits (n : Nat) : NatNumeral (natDigits n) n := by
  cases n with
  | zero =>
    have h0 : natDigits 0 = ['0'] := by unfold natDigits; decide
    rw [h0]
    exact NatNumeral.zero
  | succ m => exact NatNumeral.pos _ _ (posDigits_natDigits (m + 1) (by omega))

/-- The decimal rendering of an integer is a JSON numeral denoting it. -/
theorem jtext_intChars (n : Int) : JText (intChars n) (.num n) := by
  unfold intChars
  split_ifs with hneg
  · have h := JText.numNeg _ _ (natNumeral_natDigits n.natAbs)
    have he : -((n.natAbs : Nat) : Int) = n := by omega
    rw [he] at h
    exact h
  · have h := JText.numNat _ _ (natNumeral_natDigits n.toNat)
    have he : ((n.toNat : Nat) : Int) = n := by omega
    rw [he] at h
    exact h

mutual

/-- Everything `json.dumps` emits, in either mode and at any level, is a
syntactically valid JSON text denoting the serialized value. -/
theorem jtext_dumpsVal (ind : Option Nat) (lvl : Nat) (j : Json) :
    JText (dumpsVal ind lvl j) j := by
  cases j with
  | null => simpa [dumpsVal] using JText.null
  | bool b =>
    cases b with
    | true => simpa [dumpsVal] using JText.tru
    | false => simpa [dumpsVal] using JText.fal
  | num n => simpa [dumpsVal] using jtext_intChars n
  | str s => simpa [dumpsVal] using JText.str _ s (strBody_escapeChars s.data)
  | arr xs =>
    cases xs with
    | nil => simpa [dumpsVal] using JText.arrNil [] ws_nil
    | cons x xs =>
      have h := jitems_dumps ind (lvl + 1) x xs (nlIndent ind (lvl + 1))
        (nlIndent ind lvl) (ws_nlIndent _ _) (ws_nlIndent _ _)
      simpa [dumpsVal] using JText.arrCons _ _ h
  | obj kvs =>
    cases kvs with
    | nil => simpa [dumpsVal] using JText.objNil [] ws_nil
    | cons kv kvs =>
      have h := jmembers_dumps ind (lvl + 1) kv kvs (nlIndent ind (lvl + 1))
        (nlIndent ind lvl) (ws_nlIndent _ _) (ws_nlIndent _ _)
      simpa [dumpsVal] using JText.objCons _ _ h
termination_by sizeOf j
decreasing_by all_goals (simp_wf; try omega)

/-- A whitespace-framed first array item followed by the serialized tail
items forms the inside of a JSON array. -/
theorem jitems_dumps (ind : Option Nat) (lvl : Nat) (x : Json) (xs : List Json)
    (w1 w2 : List Char) (h1 : Ws w1) (h2 : Ws w2) :
    JItems (w1 ++ dumpsVal ind lvl x ++ dumpsItems ind lvl xs ++ w2)
      (x :: xs) := by
  cases xs with
  | nil =>
    have h := JItems.last w1 (dumpsVal ind lvl x) w2 x h1
      (jtext_dumpsVal ind lvl x) h2
    simpa [dumpsItems] using h
  | cons y ys =>
    have hrest := jitems_dumps ind lvl y ys (sepWs ind lvl) w2
      (ws_sepWs ind lvl) h2
    have h := JItems.cons w1 (dumpsVal ind lvl x) []
      (sepWs ind lvl ++ dumpsVal ind lvl y ++ dumpsItems ind lvl ys ++ w2)
      x (y :: ys) h1 (jtext_dumpsVal ind lvl x) ws_nil hrest
    simpa [dumpsItems] using h
termination_by 1 + sizeOf x + sizeOf xs
decreasing_by all_goals (simp_wf; try omega)

/-- A whitespace-framed first member followed by the serialized tail
members forms the inside of a JSON object. -/
theorem jmembers_dumps (ind : Option Nat) (lvl : Nat) (kv : String × Json)
    (kvs : List (String × Json)) (w1 w2 : List Char) (h1 : Ws w1)
    (h2 : Ws w2) :
    JMembers (w1 ++ dumpsMember ind lvl kv ++ dumpsMembers ind lvl kvs ++ w2)
      (kv :: kvs) := by
  obtain ⟨k, v⟩ := kv
  cases kvs with
  | nil =>
    have h := JMembers.last w1 (escapeChars k.data) [] [' ']
      (dumpsVal ind lvl v) w2 k v h1 (strBody_escapeChars k.data) ws_nil
      (by intro c hc; rcases List.mem_cons.mp hc with h | h
          · exact Or.inl h
          · exact absurd h (List.not_mem_nil c))
      (jtext_dumpsVal ind lvl v) h2
    simpa [dumpsMember, dumpsMembers] using h
  | cons kv' kvs' =>
    have hrest := jmembers_dumps ind lvl kv' kvs' (sepWs ind lvl) w2
      (ws_sepWs ind lvl) h2
    have h := JMembers.cons w1 (escapeChars k.data) [] [' ']
      (dumpsVal ind lvl v) []
      (sepWs ind lvl ++ dumpsMember ind lvl kv' ++ dumpsMembers ind lvl kvs'
        ++ w2) k v (kv' :: kvs') h1 (strBody_escapeChars k.data) ws_nil
      (by intro c hc; rcases List.mem_cons.mp hc with h | h
          · exact Or.inl h
          · exact absurd h (List.not_mem_nil c))
      (jtext_dumpsVal ind lvl v) ws_nil hrest
    simpa [dumpsMember, dumpsMembers] using h
termination_by 1 + sizeOf kv + sizeOf kvs
decreasing_by all_goals (simp_wf; try omega)

end

/-- Every `indent=2` serialization parses as JSON, denoting the
serialized value. -/
theorem jtext_dumps2 (j : Json) : JText (dumps2 j).data j :=
  jtext_dumpsVal (some 2) 0 j

/-- Every compact serialization parses as JSON, denoting the serialized
value. -/
theorem jtext_dumps0 (j : Json) : JText (dumps0 j).data j :=
  jtext_dumpsVal none 0 j

/-! ### The server model (src/server.py) -/

/-- Python `str` on a nonnegative `int` such as `r.status_code`. -/
def pyNatStr (n : Nat) : String := ⟨natDigits n⟩

/-- The configured upstream base URL (`API_BASE` in `server.py`). -/
def API_BASE : String := "http://103.42.50.33:8000"

/-- The `httpx.Timeout` built in `_api_post`, in seconds (the Python
literals are the floats `600.0`, all integral). -/
structure TimeoutConfig where
  connect : Nat
  read : Nat
  write : Nat
  pool : Nat
deriving DecidableEq

/-- The timeout configuration `_api_post` applies to every request. -/
def apiPostTimeout : TimeoutConfig := ⟨600, 600, 600, 600⟩

/-- One POST request as issued by `client.post` inside `_api_post`:
absolute URL, JSON body, and the timeout configuration applied. -/
structure Request where
  url : String
  body : List (String × Json)
  timeout : TimeoutConfig

/-- A Python exception as far as the handlers in `server.py` inspect it:
its `str(e)` rendering and its class name `type(e).__name__`. -/
structure PyExc where
  msg : String
  cls : String

/-- The possible outcomes of the `client.post` / `r.raise_for_status()` /
`r.json()` sequence inside `_api_post`'s `try` block:

* `response st text body`: the upstream answered with HTTP status `st`
  and raw body text `text`; `body` is the result of `r.json()` on that
  text (`Except.error` models a `json.JSONDecodeError`-like exception
  from a malformed body);
* `timeoutExc`: some phase of the request exceeded its allotted time
  (`httpx.TimeoutException`);
* `otherExc e`: any other exception during the call (DNS failure,
  connection refused, connection reset, …). -/
inductive CallResult where
  | response (status : Nat) (text : String) (body : Except PyExc Json)
  | timeoutExc
  | otherExc (e : PyExc)

/-- httpx `Response.is_success`: `raise_for_status` returns normally
exactly for 2xx statuses. -/
def is2xx (st : Nat) : Bool := decide (200 ≤ st ∧ st < 300)

/-- The dict returned by `_api_post`'s `except httpx.TimeoutException`
handler. -/
def timeoutDoc : Json :=
  .obj [("error", .str "Request timed out. The API is taking longer than expected. Please try again."),
        ("error_type", .str "timeout"),
        ("success", .bool false)]

/-- The dict returned by `_api_post`'s `except httpx.HTTPStatusError`
handler: `e.response.status_code` and `e.response.text` come from the
response `raise_for_status` was called on. -/
def httpStatusDoc (status : Nat) (text : String) : Json :=
  .obj [("error", .str ("API returned error: " ++ pyNatStr status)),
        ("error_details", .str text),
        ("success", .bool false)]

/-- The dict returned by `_api_post`'s catch-all `except Exception`
handler. -/
def requestFailedDoc (e : PyExc) : Json :=
  .obj [("error", .str ("Request failed: " ++ e.msg)),
        ("error_type", .str e.cls),
        ("success", .bool false)]

/-- The value `_api_post` returns (the function never raises: its `try`
covers the whole call sequence and the three handlers cover all
exceptions).  A 2xx response returns `r.json()` as-is; `r.json()`
raising on a malformed 2xx body falls to the catch-all handler;
a non-2xx status falls to the `HTTPStatusError` handler before
`r.json()` is reached. -/
def apiPost (r : CallResult) : Json :=
  match r with
  | .response st text body =>
      if is2xx st then
        match body with
        | .ok j => j
        | .error e => requestFailedDoc e
      else httpStatusDoc st text
  | .timeoutExc => timeoutDoc
  | .otherExc e => requestFailedDoc e

/-- The single POST `_api_post client endpoint data` issues. -/
def apiPostRequest (endpoint : String) (data : List (String × Json)) :
    Request :=
  ⟨API_BASE ++ endpoint, data, apiPostTimeout⟩

/-- What one tool invocation observes: either `_api_post` completes with
a classified result, or an exception reaches the tool's own defensive
`except Exception` handler (e.g. from `httpx.AsyncClient()` itself). -/
inductive ToolEvent where
  | call (r : CallResult)
  | adapterExn (e : PyExc)

/-- Python `x == False` on a JSON-derived value: `False == False` and
`0 == False` are `True` (bool is an int subclass), everything else the
tools can receive compares unequal. -/
def pyEqFalse (j : Json) : Bool :=
  match j with
  | .bool b => !b
  | .num n => n == 0
  | _ => false

/-- The tools' guard `isinstance(data, dict) and data.get("success") ==
False` (`dict.get` yields `None` on a missing key, and `None == False`
is `False`). -/
def successIsFalse (data : Json) : Bool :=
  match data with
  | .obj kvs =>
      match kvs.lookup "success" with
      | some v => pyEqFalse v
      | none => false
  | _ => false

/-- The dict built in each tool's defensive `except Exception` handler. -/
def unexpectedDoc (e : PyExc) : Json :=
  .obj [("error", .str ("Unexpected error: " ++ e.msg)),
        ("error_type", .str e.cls),
        ("success", .bool false)]

/-- Tool `generate_story`: posts `{"question": prompt}` to `/story`,
then serializes the gateway result with `indent=2`; both arms of the
`success == False` check return the same serialization, and the
defensive handler serializes an error dict without `indent`. -/
def generate_story (prompt : String) (ev : ToolEvent) : String :=
  match ev with
  | .call r =>
      let data := apiPost r
      if successIsFalse data then dumps2 data
      else dumps2 data
  | .adapterExn e => dumps0 (unexpectedDoc e)

/-- The POST requests one `generate_story prompt` call issues:
`_api_post` posts exactly once, and the tool body contains no retry. -/
def generate_story_requests (prompt : String) : List Request :=
  [apiPostRequest "/story" [("question", .str prompt)]]

/-- Tool `generate_episodic_beats_from_file`: posts
`{"file_path": file_path}` to `/episodic_beats_from_file`; same result
handling as `generate_story`. -/
def generate_episodic_beats_from_file (file_path : String) (ev : ToolEvent) :
    String :=
  match ev with
  | .call r =>
      let data := apiPost r
      if successIsFalse data then dumps2 data
      else dumps2 data
  | .adapterExn e => dumps0 (unexpectedDoc e)

/-- The POST requests one `generate_episodic_beats_from_file file_path`
call issues. -/
def generate_episodic_beats_from_file_requests (file_path : String) :
    List Request :=
  [apiPostRequest "/episodic_beats_from_file" [("file_path", .str file_path)]]

/-- Tool `ask_vector_db`: posts `{"question": prompt}` to `/ask`; same
result handling as `generate_story`. -/
def ask_vector_db (prompt : String) (ev : ToolEvent) : String :=
  match ev with
  | .call r =>
      let data := apiPost r
      if successIsFalse data then dumps2 data
      else dumps2 data
  | .adapterExn e => dumps0 (unexpectedDoc e)

/-- The POST requests one `ask_vector_db prompt` call issues. -/
def ask_vector_db_requests (prompt : String) : List Request :=
  [apiPostRequest "/ask" [("question", .str prompt)]]

/-- `generate_story` with the `data.get("success") == False` branch
removed, serializing the gateway result unconditionally (the refinement
target of claim C9). -/
def generate_story_nocheck (prompt : String) (ev : ToolEvent) : String :=
  match ev with
  | .call r => dumps2 (apiPost r)
  | .adapterExn e => dumps0 (unexpectedDoc e)

/-- `generate_episodic_beats_from_file` with the failure-check branch
removed. -/
def generate_episodic_beats_from_file_nocheck (file_path : String)
    (ev : ToolEvent) : String :=
  match ev with
  | .call r => dumps2 (apiPost r)
  | .adapterExn e => dumps0 (unexpectedDoc e)

/-- `ask_vector_db` with the failure-check branch removed. -/
def ask_vector_db_nocheck (prompt : String) (ev : ToolEvent) : String :=
  match ev with
  | .call r => dumps2 (apiPost r)
  | .adapterExn e => dumps0 (unexpectedDoc e)

/-- Field access on a JSON object (`data.get(key)` on a dict). -/
def Json.getField (j : Json) (k : String) : Option Json :=
  match j with
  | .obj kvs => kvs.lookup k
  | _ => none

/-- The key list of a JSON object. -/
def Json.keys : Json → List String
  | .obj kvs => kvs.map Prod.fst
  | _ => []

/-- Whether the value is a JSON object (`isinstance(data, dict)`). -/
def Json.isObj : Json → Bool
  | .obj _ => true
  | _ => false

/-- `small` occurs contiguously inside `big`. -/
def ContainsSub (big small : String) : Prop :=
  ∃ pre post : List Char, big.data = pre ++ small.data ++ post

/-! ### The claims -/

/-- C1: for every tool invocation where the upstream responds with a 2xx
status and a JSON body, the returned text is exactly the `indent=2`
serialization of that body — a syntactically valid JSON text denoting
the body itself — with no reinterpretation applied even when the body
contains an upstream-declared `success=false` field. -/
theorem c1_success_passthrough (p f text : String) (st : Nat) (j : Json)
    (h2 : is2xx st = true) :
    generate_story p (.call (.response st text (.ok j))) = dumps2 j
    ∧ generate_episodic_beats_from_file f (.call (.response st text (.ok j)))
      = dumps2 j
    ∧ ask_vector_db p (.call (.response st text (.ok j))) = dumps2 j
    ∧ JText (dumps2 j).data j := by
  refine ⟨?_, ?_, ?_, jtext_dumps2 j⟩ <;>
    simp [generate_story, generate_episodic_beats_from_file, ask_vector_db,
      apiPost, h2]

/-- C1 instantiated at a 200 response whose body itself declares
`success=false`. -/
theorem c1_success_passthrough_witness :
    generate_story "Tell me a story"
        (.call (.response 200 "raw"
          (.ok (Json.obj [("success", Json.bool false)]))))
      = dumps2 (Json.obj [("success", Json.bool false)]) :=
  (c1_success_passthrough "Tell me a story" "./x.txt" "raw" 200
    (Json.obj [("success", Json.bool false)]) (by decide)).1

/-- C2: whenever any phase of the upstream call times out, every tool
returns the `indent=2` serialization of the timeout dict: a JSON
document with `success=false`, `error_type="timeout"`, and the fixed
human-readable timeout message in `error`. -/
theorem c2_timeout_doc (p f : String) :
    generate_story p (.call .timeoutExc) = dumps2 timeoutDoc
    ∧ generate_episodic_beats_from_file f (.call .timeoutExc)
      = dumps2 timeoutDoc
    ∧ ask_vector_db p (.call .timeoutExc) = dumps2 timeoutDoc
    ∧ JText (dumps2 timeoutDoc).data timeoutDoc
    ∧ Json.getField timeoutDoc "success" = some (.bool false)
    ∧ Json.getField timeoutDoc "error_type" = some (.str "timeout")
    ∧ Json.getField timeoutDoc "error"
      = some (.str "Request timed out. The API is taking longer than expected. Please try again.") := by
  refine ⟨?_, ?_, ?_, jtext_dumps2 _, rfl, rfl, rfl⟩ <;>
    simp [generate_story, generate_episodic_beats_from_file, ask_vector_db,
      apiPost]

/-- C3: whenever the upstream responds with a non-2xx status, every tool
returns the `indent=2` serialization of the HTTP-status dict: a JSON
document with `success=false`, an `error` message containing the decimal
status code, and `error_details` equal to the raw response body text. -/
theorem c3_http_status (p f text : String) (st : Nat)
    (body : Except PyExc Json) (h : is2xx st = false) :
    generate_story p (.call (.response st text body))
      = dumps2 (httpStatusDoc st text)
    ∧ generate_episodic_beats_from_file f (.call (.response st text body))
      = dumps2 (httpStatusDoc st text)
    ∧ ask_vector_db p (.call (.response st text body))
      = dumps2 (httpStatusDoc st text)
    ∧ JText (dumps2 (httpStatusDoc st text)).data (httpStatusDoc st text)
    ∧ Json.getField (httpStatusDoc st text) "success" = some (.bool false)
    ∧ Json.getField (httpStatusDoc st text) "error"
      = some (.str ("API returned error: " ++ pyNatStr st))
    ∧ ContainsSub ("API returned error: " ++ pyNatStr st) (pyNatStr st)
    ∧ Json.getField (httpStatusDoc st text) "error_details"
      = some (.str text) := by
  refine ⟨?_, ?_, ?_, jtext_dumps2 _, rfl, rfl,
    ⟨"API returned error: ".data, [], by simp⟩, rfl⟩ <;>
    simp [generate_story, generate_episodic_beats_from_file, ask_vector_db,
      apiPost, h]

/-- C3 instantiated at a 500 response. -/
theorem c3_http_status_witness :
    generate_story "p" (.call (.response 500 "Internal Server Error"
        (.ok .null)))
      = dumps2 (httpStatusDoc 500 "Internal Server Error") :=
  (c3_http_status "p" "f" "Internal Server Error" 500 (.ok .null)
    (by decide)).1

/-- C4: whenever the call raises anything other than a timeout or an
HTTP status error — including a malformed JSON body on a 2xx response —
every tool returns the `indent=2` serialization of the request-failed
dict: `success=false`, an `error` containing the exception's string
representation, and `error_type` equal to the exception's class name,
which is nonempty whenever the class name is. -/
theorem c4_transport_error (p f text : String) (st : Nat) (e pe : PyExc)
    (h2 : is2xx st = true) (hcls : e.cls ≠ "") :
    generate_story p (.call (.otherExc e)) = dumps2 (requestFailedDoc e)
    ∧ generate_episodic_beats_from_file f (.call (.otherExc e))
      = dumps2 (requestFailedDoc e)
    ∧ ask_vector_db p (.call (.otherExc e)) = dumps2 (requestFailedDoc e)
    ∧ generate_story p (.call (.response st text (.error pe)))
      = dumps2 (requestFailedDoc pe)
    ∧ JText (dumps2 (requestFailedDoc e)).data (requestFailedDoc e)
    ∧ Json.getField (requestFailedDoc e) "success" = some (.bool false)
    ∧ Json.getField (requestFailedDoc e) "error"
      = some (.str ("Request failed: " ++ e.msg))
    ∧ ContainsSub ("Request failed: " ++ e.msg) e.msg
    ∧ Json.getField (requestFailedDoc e) "error_type" = some (.str e.cls)
    ∧ e.cls ≠ "" := by
  refine ⟨?_, ?_, ?_, ?_, jtext_dumps2 _, rfl, rfl,
    ⟨"Request failed: ".data, [], by simp⟩, rfl, hcls⟩ <;>
    simp [generate_story, generate_episodic_beats_from_file, ask_vector_db,
      apiPost, h2]

/-- C4 instantiated at a refused connection and at a 200 response with a
non-JSON body. -/
theorem c4_transport_error_witness :
    generate_story "p" (.call (.otherExc
        ⟨"All connection attempts failed", "ConnectError"⟩))
      = dumps2 (requestFailedDoc
        ⟨"All connection attempts failed", "ConnectError"⟩) :=
  (c4_transport_error "p" "f" "not json" 200
    ⟨"All connection attempts failed", "ConnectError"⟩
    ⟨"Expecting value: line 1 column 1 (char 0)", "JSONDecodeError"⟩
    (by decide) (by decide)).1

/-- C5: whatever the upstream behaviour — success, timeout, HTTP status
failure, transport failure, or an exception reaching the tool's own
defensive handler — each tool's returned text is a syntactically valid
JSON document (the tools are total functions of the observed event, so
no exception propagates), and the defensive handler produces the
compactly serialized `success=false` error dict. -/
theorem c5_always_valid_json (p f : String) (ev : ToolEvent) :
    ParsesAsJson (generate_story p ev)
    ∧ ParsesAsJson (generate_episodic_beats_from_file f ev)
    ∧ ParsesAsJson (ask_vector_db p ev)
    ∧ ∀ e : PyExc,
        generate_story p (ToolEvent.adapterExn e) = dumps0 (unexpectedDoc e)
        ∧ Json.getField (unexpectedDoc e) "success" = some (.bool false)
        ∧ Json.getField (unexpectedDoc e) "error"
          = some (.str ("Unexpected error: " ++ e.msg))
        ∧ Json.getField (unexpectedDoc e) "error_type"
          = some (.str e.cls) := by
  refine ⟨?_, ?_, ?_, fun e => ⟨rfl, rfl, rfl, rfl⟩⟩
  · cases ev with
    | call r =>
      have hout : generate_story p (.call r) = dumps2 (apiPost r) := by
        simp [generate_story]
      exact ⟨apiPost r, hout ▸ jtext_dumps2 (apiPost r)⟩
    | adapterExn e => exact ⟨unexpectedDoc e, jtext_dumps0 (unexpectedDoc e)⟩
  · cases ev with
    | call r =>
      have hout : generate_episodic_beats_from_file f (.call r)
          = dumps2 (apiPost r) := by
        simp [generate_episodic_beats_from_file]
      exact ⟨apiPost r, hout ▸ jtext_dumps2 (apiPost r)⟩
    | adapterExn e => exact ⟨unexpectedDoc e, jtext_dumps0 (unexpectedDoc e)⟩
  · cases ev with
    | call r =>
      have hout : ask_vector_db p (.call r) = dumps2 (apiPost r) := by
        simp [ask_vector_db]
      exact ⟨apiPost r, hout ▸ jtext_dumps2 (apiPost r)⟩
    | adapterExn e => exact ⟨unexpectedDoc e, jtext_dumps0 (unexpectedDoc e)⟩

/-- C6: for every string argument, `generate_story` issues exactly one
POST to `<base>/story` with body `{"question": s}`,
`generate_episodic_beats_from_file` exactly one POST to
`<base>/episodic_beats_from_file` with body `{"file_path": s}`, and
`ask_vector_db` exactly one POST to `<base>/ask` with body
`{"question": s}`; no retries are performed. -/
theorem c6_request_shape (s : String) :
    generate_story_requests s
      = [⟨API_BASE ++ "/story", [("question", Json.str s)], apiPostTimeout⟩]
    ∧ (generate_story_requests s).length = 1
    ∧ generate_episodic_beats_from_file_requests s
      = [⟨API_BASE ++ "/episodic_beats_from_file",
          [("file_path", Json.str s)], apiPostTimeout⟩]
    ∧ (generate_episodic_beats_from_file_requests s).length = 1
    ∧ ask_vector_db_requests s
      = [⟨API_BASE ++ "/ask", [("question", Json.str s)], apiPostTimeout⟩]
    ∧ (ask_vector_db_requests s).length = 1 :=
  ⟨rfl, rfl, rfl, rfl, rfl, rfl⟩

/-- C7 as stated is false: the HTTP-status-failure outcome carries no
kind/classification field.  At a 500 response its keys are exactly
`error`, `error_details`, `success`; there is no `error_type`, and
`error_details` holds the raw response body, not a classification
tag. -/
theorem c7_counterexample :
    Json.getField (httpStatusDoc 500 "Internal Server Error") "error_type"
      = none
    ∧ Json.keys (httpStatusDoc 500 "Internal Server Error")
      = ["error", "error_details", "success"]
    ∧ Json.getField (httpStatusDoc 500 "Internal Server Error")
        "error_details" = some (.str "Internal Server Error")
    ∧ generate_story "p" (.call (.response 500 "Internal Server Error"
        (.ok .null)))
      = dumps2 (httpStatusDoc 500 "Internal Server Error") := by
  refine ⟨rfl, rfl, rfl, ?_⟩
  simp [generate_story, apiPost, is2xx]

/-- C7 amended: every classified failure is surfaced by every tool as the
serialization of a dict with `success=false` and an `error` message;
the timeout and transport failures additionally carry the classification
field `error_type` (`"timeout"` resp. the exception's class name), while
the HTTP-status failure carries `error_details` (the raw response body)
and no classification field. -/
theorem c7_amended_failure_shapes (p f text : String) (st : Nat) (e : PyExc)
    (body : Except PyExc Json) (hst : is2xx st = false) :
    generate_story p (.call .timeoutExc) = dumps2 timeoutDoc
    ∧ generate_episodic_beats_from_file f (.call .timeoutExc)
      = dumps2 timeoutDoc
    ∧ ask_vector_db p (.call .timeoutExc) = dumps2 timeoutDoc
    ∧ generate_story p (.call (.otherExc e)) = dumps2 (requestFailedDoc e)
    ∧ generate_episodic_beats_from_file f (.call (.otherExc e))
      = dumps2 (requestFailedDoc e)
    ∧ ask_vector_db p (.call (.otherExc e)) = dumps2 (requestFailedDoc e)
    ∧ generate_story p (.call (.response st text body))
      = dumps2 (httpStatusDoc st text)
    ∧ generate_episodic_beats_from_file f (.call (.response st text body))
      = dumps2 (httpStatusDoc st text)
    ∧ ask_vector_db p (.call (.response st text body))
      = dumps2 (httpStatusDoc st text)
    ∧ Json.getField timeoutDoc "success" = some (.bool false)
    ∧ Json.getField timeoutDoc "error"
      = some (.str "Request timed out. The API is taking longer than expected. Please try again.")
    ∧ Json.getField timeoutDoc "error_type" = some (.str "timeout")
    ∧ Json.getField (requestFailedDoc e) "success" = some (.bool false)
    ∧ Json.getField (requestFailedDoc e) "error"
      = some (.str ("Request failed: " ++ e.msg))
    ∧ Json.getField (requestFailedDoc e) "error_type" = some (.str e.cls)
    ∧ Json.getField (httpStatusDoc st text) "success" = some (.bool false)
    ∧ Json.getField (httpStatusDoc st text) "error"
      = some (.str ("API returned error: " ++ pyNatStr st))
    ∧ Json.getField (httpStatusDoc st text) "error_details"
      = some (.str text)
    ∧ Json.getField (httpStatusDoc st text) "error_type" = none := by
  refine ⟨?_, ?_, ?_, ?_, ?_, ?_, ?_, ?_, ?_, rfl, rfl, rfl, rfl, rfl, rfl,
    rfl, rfl, rfl, rfl⟩ <;>
    simp [generate_story, generate_episodic_beats_from_file, ask_vector_db,
      apiPost, hst]

/-- C7's amended shape instantiated at a 500 response and a refused
connection. -/
theorem c7_amended_failure_shapes_witness :
    generate_story "p" (.call .timeoutExc) = dumps2 timeoutDoc :=
  (c7_amended_failure_shapes "p" "f" "boom" 500
    ⟨"All connection attempts failed", "ConnectError"⟩ (.ok .null)
    (by decide)).1

/-- C8: every outbound request of every tool carries the
`httpx.Timeout` configuration applying 600 seconds independently to the
connect, read, write, and pool-acquisition phases. -/
theorem c8_timeout_600 (s : String) :
    (generate_story_requests s).map Request.timeout
      = [⟨600, 600, 600, 600⟩]
    ∧ (generate_episodic_beats_from_file_requests s).map Request.timeout
      = [⟨600, 600, 600, 600⟩]
    ∧ (ask_vector_db_requests s).map Request.timeout
      = [⟨600, 600, 600, 600⟩]
    ∧ apiPostTimeout.connect = 600 ∧ apiPostTimeout.read = 600
    ∧ apiPostTimeout.write = 600 ∧ apiPostTimeout.pool = 600 :=
  ⟨rfl, rfl, rfl, rfl, rfl, rfl, rfl⟩

/-- C9: the branch each tool takes when the gateway result is a dict
with `success == False` returns the same string as the default branch,
so each tool is extensionally equal to its variant with that branch
removed. -/
theorem c9_success_check_dead (p f : String) (ev : ToolEvent) :
    generate_story p ev = generate_story_nocheck p ev
    ∧ generate_episodic_beats_from_file f ev
      = generate_episodic_beats_from_file_nocheck f ev
    ∧ ask_vector_db p ev = ask_vector_db_nocheck p ev := by
  cases ev <;>
    simp [generate_story, generate_story_nocheck,
      generate_episodic_beats_from_file,
      generate_episodic_beats_from_file_nocheck, ask_vector_db,
      ask_vector_db_nocheck]

/-- C10: a 2xx response whose JSON body is not an object is returned by
every tool as a success result — the serialization of the body itself —
because the upstream-declared-failure guard is false on every non-object
value. -/
theorem c10_nonobject_success (p f text : String) (st : Nat) (j : Json)
    (h2 : is2xx st = true) (hobj : Json.isObj j = false) :
    successIsFalse j = false
    ∧ generate_story p (.call (.response st text (.ok j))) = dumps2 j
    ∧ generate_episodic_beats_from_file f (.call (.response st text (.ok j)))
      = dumps2 j
    ∧ ask_vector_db p (.call (.response st text (.ok j))) = dumps2 j := by
  refine ⟨?_, ?_, ?_, ?_⟩
  · cases j <;> simp_all [successIsFalse, Json.isObj]
  all_goals
    simp [generate_story, generate_episodic_beats_from_file, ask_vector_db,
      apiPost, h2]

/-- C10 instantiated at a 200 response with an array body. -/
theorem c10_nonobject_success_witness :
    generate_story "p" (.call (.response 200 "[1]" (.ok (Json.arr [.num 1]))))
      = dumps2 (Json.arr [.num 1]) :=
  (c10_nonobject_success "p" "f" "[1]" 200 (Json.arr [.num 1]) (by decide)
    rfl).2.1

end StoryMcp
